import Mathlib

/-!
# Verification of the Copi copy-trading pipeline

Shallow embedding of the signal-detection / copy-execution core of the
repository: the settings-update handler, the eligibility checks
(`shouldCopyTrade`, `shouldExecuteTrade`), the execution queue of the
`CopyTrader` class, the `TradingEngine` rate/roll logic, the reconnect
state machine of `BlockchainMonitor`, the swap-transaction parser and the
per-second `RateLimiter`.  JS numbers are modelled as `ℚ` (exact for the
integral millisecond timestamps and the small decimal literals involved),
JS `undefined`/`null` as `Option`, a thrown JS exception as `Except.error`.
-/

namespace Copi

/-! ## UserSettings (src/database/database.js `createUser`,
    src/unnamed/part_002 settings-update handler) -/

structure Settings where
  tradeAmount : ℚ
  slippage : ℚ
  autoMimic : Bool
  buyOnly : Bool
  sellOnly : Bool
  delay : Int
  maxTradesPerToken : Int
  deriving Repr, DecidableEq

/-- Default settings written by `createUser` in src/database/database.js. -/
def defaultSettings : Settings :=
  { tradeAmount := 1/100
    slippage := 3
    autoMimic := true
    buyOnly := false
    sellOnly := false
    delay := 1000
    maxTradesPerToken := 3 }

/-- One parsed settings command of the part_002 conversation loop.
`Option` models a `parseFloat`/`parseInt` result that is `NaN`
(every range comparison against `NaN` is false in JS). -/
inductive SettingCmd where
  | amount (v : Option ℚ)
  | slippage (v : Option ℚ)
  | delayCmd (v : Option Int)
  | maxrades (v : Option Int)
  | buyonly (value : String)
  | sellonly (value : String)
  | unknown
  deriving Repr, DecidableEq

/-- The `switch (command)` body of the settings loop in src/unnamed/part_002
(lines 455–511): each case either updates `newSettings` under its range
guard or leaves the settings unchanged. -/
def applySettingCmd (s : Settings) (c : SettingCmd) : Settings :=
  match c with
  | .amount v =>
      match v with
      | some a => if 0 < a ∧ a ≤ 10 then { s with tradeAmount := a } else s
      | none => s
  | .slippage v =>
      match v with
      | some sl => if 1/10 ≤ sl ∧ sl ≤ 20 then { s with slippage := sl } else s
      | none => s
  | .delayCmd v =>
      match v with
      | some d => if 0 ≤ d ∧ d ≤ 30000 then { s with delay := d } else s
      | none => s
  | .maxrades v =>
      match v with
      | some m => if 1 ≤ m ∧ m ≤ 20 then { s with maxTradesPerToken := m } else s
      | none => s
  | .buyonly value => { s with buyOnly := value == "on", sellOnly := false }
  | .sellonly value => { s with sellOnly := value == "on", buyOnly := false }
  | .unknown => s

/-! ## CopyTrader (src/services/tradeExecuter.js, second class) -/

structure Wallet where
  publicKey : Option String
  encryptedPrivateKey : Option String
  deriving Repr, DecidableEq

structure UserRec where
  id : String
  settings : Settings
  wallet : Option Wallet
  deriving Repr, DecidableEq

structure TokenRef where
  mint : Option String
  deriving Repr, DecidableEq

/-- The swap payload handed to the CopyTrader (`swapData`).  `type` is the
raw string field (`'buy'` / `'sell'` in practice). -/
structure SwapData where
  wallet : String
  signature : String
  type : String
  inputToken : Option TokenRef
  outputToken : Option TokenRef
  deriving Repr, DecidableEq

structure CopyDecision where
  allowed : Bool
  reason : Option String
  deriving Repr, DecidableEq

/-- The per-user per-token counter key `` `${user.id}_${tokenMint}` ``. -/
def tradeCounterKey (userId mint : String) : String := userId ++ "_" ++ mint

/-- The ternary `swapData.type === 'buy' ? swapData.outputToken?.mint : swapData.inputToken?.mint`. -/
def swapTokenMint (swapData : SwapData) : Option String :=
  if swapData.type == "buy" then swapData.outputToken.bind TokenRef.mint
  else swapData.inputToken.bind TokenRef.mint

/-- Embedding of `CopyTrader.shouldCopyTrade` (tradeExecuter.js lines 186–242).
`tradeCounters` models `this.tradeCounters.get(k) || 0`; `solBalance`
models the awaited `walletManager.getSOLBalance` result. -/
def shouldCopyTrade (user : UserRec) (swapData : SwapData)
    (tradeCounters : String → Int) (solBalance : ℚ) : CopyDecision :=
  if !user.settings.autoMimic then ⟨false, some ("Auto-mimic disabled")⟩
  else if user.settings.buyOnly && (swapData.type == "sell") then
    ⟨false, some ("Buy-only mode enabled")⟩
  else if user.settings.sellOnly && (swapData.type == "buy") then
    ⟨false, some ("Sell-only mode enabled")⟩
  else
    let capHit : Bool :=
      match swapTokenMint swapData with
      | some m => decide (tradeCounters (tradeCounterKey user.id m) ≥ user.settings.maxTradesPerToken)
      | none => false
    if capHit then ⟨false, some ("Max trades per token reached")⟩
    else
      match user.wallet with
      | none => ⟨false, some ("No wallet connected")⟩
      | some w =>
          match w.publicKey with
          | none => ⟨false, some ("No wallet connected")⟩
          | some _ =>
              if solBalance < user.settings.tradeAmount + 1/100 then
                ⟨false, some ("Insufficient SOL balance")⟩
              else ⟨true, none⟩

/-- Embedding of `TradeExecutor.shouldExecuteTrade` (tradeExecuter.js lines 24–35, first
class).  `activeCount` models `this.activeTrades.get(key)`: in JS a lookup
miss yields `undefined`, and `undefined < n` is `false`. -/
def shouldExecuteTrade (isTracked : Bool) (settings : Settings)
    (isBuy : Bool) (activeCount : Option Int) : Bool :=
  isTracked && settings.autoMimic &&
    (if isBuy then !settings.sellOnly else !settings.buyOnly) &&
    (match activeCount with
     | some c => decide (c < settings.maxTradesPerToken)
     | none => false)

/-! ## The execution queue (`queueCopyTrade` / `processQueue`) -/

/-- The attempt id `` `${user.id}_${swapData.signature}_${Date.now()}` ``
built in `queueCopyTrade` (tradeExecuter.js line 164). -/
def mkAttemptId (userId signature : String) (now : Int) : String :=
  userId ++ "_" ++ signature ++ "_" ++ toString now

structure CopyTradeAttempt where
  id : String
  userId : String
  signature : String
  enqueuedAt : Int
  status : String
  deriving Repr, DecidableEq

/-- Embedding of `CopyTrader.queueCopyTrade` (tradeExecuter.js lines 153–183): if the
eligibility check passes, push a fresh attempt onto `processingQueue`;
there is no lookup of existing attempts. -/
def queueCopyTrade (queue : List CopyTradeAttempt) (user : UserRec)
    (swapData : SwapData) (tradeCounters : String → Int) (solBalance : ℚ)
    (now : Int) : List CopyTradeAttempt :=
  if (shouldCopyTrade user swapData tradeCounters solBalance).allowed then
    queue ++ [{ id := mkAttemptId user.id swapData.signature now
                userId := user.id
                signature := swapData.signature
                enqueuedAt := now
                status := "queued" }]
  else queue

/-- State of the CopyTrader drain loop: the FIFO queue, the multiset of
in-flight `executeCopyTrade` calls (by attempt), and `activeTrades`, which
in the source is a JS `Set` of attempt-id strings. -/
structure ExecState where
  queued : List CopyTradeAttempt
  executing : List CopyTradeAttempt
  active : Finset String
  deriving DecidableEq

/-- One observable step of `processQueue` (tradeExecuter.js lines 245–274):
a `start` shifts the queue head and launches it only while
`activeTrades.size < maxConcurrentTrades`, adding its id to the set; a
`finish` is the `.finally` of one in-flight call, deleting its id. -/
inductive ExecStep (max : ℕ) : ExecState → ExecState → Prop where
  | start (s : ExecState) (a : CopyTradeAttempt) (rest : List CopyTradeAttempt) :
      s.queued = a :: rest → s.active.card < max →
      ExecStep max s ⟨rest, a :: s.executing, insert a.id s.active⟩
  | finish (s : ExecState) (a : CopyTradeAttempt) :
      a ∈ s.executing →
      ExecStep max s ⟨s.queued, s.executing.erase a, s.active.erase a.id⟩

/-- Reachability under the drain-loop steps. -/
def ExecReach (max : ℕ) : ExecState → ExecState → Prop :=
  Relation.ReflTransGen (ExecStep max)

/-- The constant `this.maxConcurrentTrades = 3` (tradeExecuter.js line 99). -/
def maxConcurrentTrades : ℕ := 3

/-! ## `CopyTrader.executeCopyTrade` (tradeExecuter.js lines 277–365) -/

/-- Result of `executeBuyTrade` / `executeSellTrade` when they return. -/
structure TradeResult where
  success : Bool
  signature : Option String
  error : Option String
  deriving Repr, DecidableEq

/-- One `database.logTrade` record as written by `executeCopyTrade`. -/
structure LogEntry where
  userId : String
  originalSignature : String
  copySignature : Option String
  success : Bool
  error : Option String
  deriving Repr, DecidableEq

/-- Observable outcome of one `executeCopyTrade` call: the trade counters
after the call, the persisted log entries, and the emitted event names. -/
structure ExecOutcome where
  tradeCounters : String → Int
  logged : List LogEntry
  events : List String

/-- Embedding of `CopyTrader.executeCopyTrade`.  `result` is the awaited buy/sell
pipeline: `Except.error e` models a thrown exception anywhere in the
`try` block (missing keypair, unsupported type, a throwing
`executeBuyTrade`/`executeSellTrade`); `Except.ok r` a returned
`tradeResult`.  Counters are bumped only under `tradeResult.success`;
the catch block logs a failed trade and emits `tradeError`. -/
def executeCopyTrade (tradeCounters : String → Int) (user : UserRec)
    (swapData : SwapData) (result : Except String TradeResult) : ExecOutcome :=
  match result with
  | .error e =>
      { tradeCounters := tradeCounters
        logged := [{ userId := user.id, originalSignature := swapData.signature,
                     copySignature := none, success := false, error := some e }]
        events := ["tradeError"] }
  | .ok r =>
      let counters' : String → Int :=
        if r.success then
          match swapTokenMint swapData with
          | some m =>
              fun k => if k = tradeCounterKey user.id m then tradeCounters k + 1
                       else tradeCounters k
          | none => tradeCounters
        else tradeCounters
      { tradeCounters := counters'
        logged := [{ userId := user.id, originalSignature := swapData.signature,
                     copySignature := r.signature, success := r.success,
                     error := r.error }]
        events := ["tradeCompleted"] }

/-! ## TradingEngine (src/unnamed/part_004) -/

structure EngineSettings where
  auto_trading : Bool
  max_trades_per_hour : Int
  max_trade_amount : ℚ
  deriving Repr, DecidableEq

/-- Per-user in-memory record of `this.activeUsers` (part_004 lines 24–30). -/
structure UserData where
  walletAddress : String
  settings : EngineSettings
  lastTradeTime : Int
  tradesThisHour : Int
  hourlyReset : Int
  deriving Repr, DecidableEq

/-- The lazy hourly roll at the top of `canUserTrade` (part_004 lines
59–64): note the strict `now > userData.hourlyReset` comparison. -/
def rollHourlyWindow (u : UserData) (now : Int) : UserData :=
  if now > u.hourlyReset then
    { u with tradesThisHour := 0, hourlyReset := now + 3600000 }
  else u

inductive DenyReason where
  | hourlyCap
  | cooldown
  deriving Repr, DecidableEq

/-- Embedding of `TradingEngine.canUserTrade` (part_004 lines 58–70), with the denial
cause made explicit (the source returns bare `false`; the first failing
check is the hourly cap, then the 30s cooldown). -/
def canUserTrade (u : UserData) (now : Int) : Option DenyReason × UserData :=
  let u' := rollHourlyWindow u now
  if u'.tradesThisHour ≥ u'.settings.max_trades_per_hour then (some .hourlyCap, u')
  else if now - u'.lastTradeTime < 30000 then (some .cooldown, u')
  else (none, u')

structure TradeSignal where
  alphaWallet : String
  tokenAddress : String
  amountIn : Option ℚ
  deriving Repr, DecidableEq

structure JupQuote where
  inAmount : ℚ
  outAmount : ℚ
  deriving Repr, DecidableEq

structure SimResult where
  success : Bool
  signature : Option String
  deriving Repr, DecidableEq

/-- The record shape saved by `this.db.saveTrade` (part_004 lines 89–98). -/
structure TradeRecord where
  telegramId : String
  alphaWallet : String
  tokenAddress : String
  tradeType : String
  amount : ℚ
  price : ℚ
  signature : Option String
  status : String
  deriving Repr, DecidableEq

/-- The sizing expression `Math.min(userData.settings.max_trade_amount, (tradeSignal.amountIn || 0) * 0.1)`
(part_004 lines 73–76).  `amountIn.getD 0` models `|| 0` (absent or zero
source amount both give `0`; `0 * 0.1 = 0` is exact in floating point). -/
def copyTradeAmount (maxTradeAmount : ℚ) (amountIn : Option ℚ) : ℚ :=
  min maxTradeAmount (amountIn.getD 0 * (1/10))

structure EngineOutcome where
  userData : UserData
  savedTrades : List TradeRecord
  events : List String
  deriving Repr, DecidableEq

/-- Embedding of `TradingEngine.executeTrade` (part_004 lines 72–110).  `quote` models
the awaited `getJupiterQuote` (`none` = quote unavailable, the function
returns `null` on any axios error); `sim` the awaited `simulateTrade`.
A missing quote or a failed simulation makes the function `return` with
no state change, no saved record and no event; only the success path
bumps `tradesThisHour`, sets `lastTradeTime` and emits `tradeCompleted`.
(`price` is `quote.outAmount / quote.inAmount`; `ℚ` division by zero
yields `0` where JS yields a non-finite number — the field is inert in
every theorem below.) -/
def executeTrade (telegramId : String) (userData : UserData)
    (tradeSignal : TradeSignal) (quote : Option JupQuote) (sim : SimResult)
    (now : Int) : EngineOutcome :=
  let tradeAmount := copyTradeAmount userData.settings.max_trade_amount tradeSignal.amountIn
  match quote with
  | none => { userData := userData, savedTrades := [], events := [] }
  | some q =>
      if !sim.success then { userData := userData, savedTrades := [], events := [] }
      else
        let tradeRecord : TradeRecord :=
          { telegramId := telegramId
            alphaWallet := tradeSignal.alphaWallet
            tokenAddress := tradeSignal.tokenAddress
            tradeType := "BUY"
            amount := tradeAmount
            price := q.outAmount / q.inAmount
            signature := sim.signature
            status := "completed" }
        { userData := { userData with lastTradeTime := now,
                                      tradesThisHour := userData.tradesThisHour + 1 }
          savedTrades := [tradeRecord]
          events := ["tradeCompleted"] }

/-! ## BlockchainMonitor reconnection (src/blockchain/blockchainMonitor.js
    lines 86–109; src/unnamed/part_005 lines 167–191) -/

structure MonitorState where
  isMonitoring : Bool
  reconnectAttempts : ℕ
  pendingRetry : Bool
  degradedEmitted : Bool
  deriving Repr, DecidableEq

/-- The constant `this.maxReconnectAttempts = 5` (blockchainMonitor.js line 17). -/
def maxReconnectAttempts : ℕ := 5

/-- The backoff delay `this.reconnectDelay * Math.pow(2, this.reconnectAttempts - 1)`
(blockchainMonitor.js line 94), with `reconnectDelay = 5000`. -/
def reconnectDelayFor (attempts : ℕ) : ℕ := 5000 * 2 ^ (attempts - 1)

/-- One call of `BlockchainMonitor.handleReconnect`.  When monitoring is
off or the attempt counter has reached the maximum, it sets
`isMonitoring = false` and returns without scheduling anything; no
`source-degraded` (or any other) event is emitted on that path.
Otherwise it increments the counter and schedules one delayed retry. -/
def handleReconnect (s : MonitorState) : MonitorState :=
  if !s.isMonitoring || decide (s.reconnectAttempts ≥ maxReconnectAttempts) then
    { s with isMonitoring := false, pendingRetry := false }
  else
    { s with reconnectAttempts := s.reconnectAttempts + 1, pendingRetry := true }

/-- The ws `open` handler resets the failure counter (line 52): only a
successful reconnect ever resets it. -/
def wsOpen (s : MonitorState) : MonitorState :=
  { s with reconnectAttempts := 0 }

/-- The part_005 variant (lines 168–191): on reaching the maximum it
emits an `error` event (not `source-degraded`) and returns with no retry
scheduled. -/
def handleReconnectAlt (s : MonitorState) : MonitorState :=
  if s.reconnectAttempts ≥ maxReconnectAttempts then
    { s with pendingRetry := false }
  else
    { s with reconnectAttempts := s.reconnectAttempts + 1, pendingRetry := true }

/-- State evolution under `n` consecutive reconnection failures: each
failed scheduled retry re-enters `handleReconnect`. -/
def afterFailures (n : ℕ) (s : MonitorState) : MonitorState :=
  Nat.iterate handleReconnect n s

/-! ## Swap parser (src/utils/transactionParser.js) -/

def JUPITER_PROGRAM_ID : String := "JUP6LkbZbjS1jKKwapdHNy74zcZ3tLUZoi5QNyVTaV4"

/-- The stablecoin allow-list of `isBuyOrder` (lines 45–48). -/
def knownStablecoins : List String :=
  ["Es9vMFrzaCER9JYTZcJJb4sVAXo1ZCUoGFjmDtAyoTyU",
   "EPjFWdd5AufqSSqeM2qN1xzybapC8G4wEGGkZwyTDt1v"]

/-- Embedding of `isBuyOrder` (lines 43–50); `inputMint` may be `undefined`
(`Array.includes(undefined)` on this list is `false`). -/
def isBuyOrder (inputMint : Option String) : Bool :=
  match inputMint with
  | some m => knownStablecoins.contains m
  | none => false

structure SwapInfo where
  inputMint : Option String
  outputMint : Option String
  inAmount : Option ℚ
  outAmount : Option ℚ
  deriving Repr, DecidableEq

structure ParsedWrap where
  info : Option SwapInfo
  deriving Repr, DecidableEq

structure InnerInstr where
  programId : Option String
  parsed : Option ParsedWrap
  deriving Repr, DecidableEq

structure InnerGroup where
  instructions : List InnerInstr
  deriving Repr, DecidableEq

structure TxMeta where
  innerInstructions : Option (List InnerGroup)
  fee : ℚ
  deriving Repr, DecidableEq

structure ParsedTx where
  meta : Option TxMeta
  blockTime : Option Int
  deriving Repr, DecidableEq

structure SwapEvent where
  txSignature : String
  inputMint : Option String
  outputMint : Option String
  inputAmount : Option ℚ
  outputAmount : Option ℚ
  isBuy : Bool
  timestamp : Int
  fee : ℚ
  deriving Repr, DecidableEq

/-- The lookup `tx.meta.innerInstructions.flatMap(i => i.instructions)
      .find(i => i.programId?.toBase58() === JUPITER_PROGRAM_ID)`
(lines 18–20); a missing `programId` compares unequal. -/
def findJupiterInstr (groups : List InnerGroup) : Option InnerInstr :=
  (groups.flatMap InnerGroup.instructions).find?
    (fun i => i.programId == some JUPITER_PROGRAM_ID)

/-- Whether any inner instruction invokes the Jupiter program id. -/
def txInvokesJupiter (otx : Option ParsedTx) : Bool :=
  match otx with
  | none => false
  | some tx =>
      match tx.meta with
      | none => false
      | some meta =>
          match meta.innerInstructions with
          | none => false
          | some groups =>
              (groups.flatMap InnerGroup.instructions).any
                (fun i => i.programId == some JUPITER_PROGRAM_ID)

/-- The `try` block of `parseSwapTransaction` (lines 9–35) in an explicit
exception monad.  `fetch` models the awaited `getParsedTransaction`
(`Except.error` = the RPC call threw, `ok none` = `null` transaction).
The guard `!tx?.meta?.innerInstructions` returns `null` early; reading
`swapInstruction.parsed.info` on a missing `parsed`, or destructuring a
missing `info`, throws a `TypeError`.  `tx.blockTime * 1000` with a
`null` block time coerces to `0` in JS (`getD 0`). -/
def parseSwapBody (fetch : Except String (Option ParsedTx)) (txSignature : String) :
    Except String (Option SwapEvent) :=
  match fetch with
  | .error e => .error e
  | .ok none => .ok none
  | .ok (some tx) =>
      match tx.meta with
      | none => .ok none
      | some meta =>
          match meta.innerInstructions with
          | none => .ok none
          | some groups =>
              match findJupiterInstr groups with
              | none => .ok none
              | some instr =>
                  match instr.parsed with
                  | none => .error ("TypeError: undefined parsed")
                  | some pw =>
                      match pw.info with
                      | none => .error ("TypeError: undefined info")
                      | some info =>
                          .ok (some
                            { txSignature := txSignature
                              inputMint := info.inputMint
                              outputMint := info.outputMint
                              inputAmount := info.inAmount
                              outputAmount := info.outAmount
                              isBuy := isBuyOrder info.inputMint
                              timestamp := tx.blockTime.getD 0 * 1000
                              fee := meta.fee })

/-- Embedding of `parseSwapTransaction`: the whole body is wrapped in
`try … catch (error) { console.error(…); return null; }`, so a thrown
body yields `null` at the boundary. -/
def parseSwapTransaction (fetch : Except String (Option ParsedTx))
    (txSignature : String) : Option SwapEvent :=
  match parseSwapBody fetch txSignature with
  | .ok r => r
  | .error _ => none

/-! ## RateLimiter (src/rateLimiter.js)

The JS counter map is keyed by the string `` `${resource}_${second}` ``;
since `second` renders without underscores that encoding is injective,
so the map itself is modelled as keyed by the pair `(resource, second)`.
Every read goes through `this.counters.get(key) || 0`, hence the map is
modelled as a total function with default `0` (deleting a key = setting
it to `0`).  The `resetCounters` sweep, however, inspects the *string*
form of the key — `parseInt(key.split('_')[1], 10)` — so its deletion
predicate is reproduced on the string encoding by `keySecondOf`. -/

/-- A user with auto-mimic on, a linked wallet and default settings. -/
def cUser : UserRec :=
  { id := "7", settings := defaultSettings, wallet := some ⟨some ("PUB"), some ("ENC")⟩ }

def cUserSellOnly : UserRec :=
  { cUser with settings := { defaultSettings with sellOnly := true } }

def cSwap : SwapData :=
  { wallet := "alpha", signature := "SIG", type := "buy",
    inputToken := none, outputToken := some ⟨some ("MINT")⟩ }

def cSwap2 : SwapData := { cSwap with signature := "SIG2" }

def cSwap3 : SwapData := { cSwap with signature := "SIG3" }

/-- Zero trade counters (`tradeCounters.get(k) || 0` on an empty map). -/
def zeroCounters : String → Int := fun _ => 0

/-- A TradingEngine user sitting exactly at its hourly window boundary
with the hourly budget spent. -/
def cUserData : UserData :=
  { walletAddress := "W"
    settings := { auto_trading := true, max_trades_per_hour := 5, max_trade_amount := 1/20 }
    lastTradeTime := 0
    tradesThisHour := 5
    hourlyReset := 1000 }

/-- A TradingEngine user with budget available. -/
def cUserData0 : UserData :=
  { cUserData with tradesThisHour := 0, hourlyReset := 3600000 }

def cSignal : TradeSignal :=
  { alphaWallet := "alpha", tokenAddress := "TOK", amountIn := none }

def cQuote : JupQuote := { inAmount := 1, outAmount := 2 }

def cSim : SimResult := { success := true, signature := some ("S") }

/-- Monitor state at startup of an active monitoring session. -/
def initialMonitor : MonitorState :=
  { isMonitoring := true, reconnectAttempts := 0, pendingRetry := false,
    degradedEmitted := false }

/-- The halted monitor state produced by exhausting the retry budget. -/
def haltedMonitor : MonitorState :=
  { isMonitoring := false, reconnectAttempts := 5, pendingRetry := false,
    degradedEmitted := false }

/-- Four `queueCopyTrade` submits: the same `(userId, txSignature)` pair
twice in the same millisecond (`Date.now()` has millisecond resolution,
so two deliveries of one signal can collide), then two distinct signals. -/
def collidingQueue : List CopyTradeAttempt :=
  queueCopyTrade
    (queueCopyTrade
      (queueCopyTrade
        (queueCopyTrade [] cUser cSwap zeroCounters 1 5)
        cUser cSwap zeroCounters 1 5)
      cUser cSwap2 zeroCounters 1 6)
    cUser cSwap3 zeroCounters 1 7

/-! # Theorems -/

/-- Mutual exclusion of `buyOnly`/`sellOnly` is preserved by every single
settings command. -/
lemma applySettingCmd_mutex (s : Settings) (c : SettingCmd)
    (h : ¬(s.buyOnly = true ∧ s.sellOnly = true)) :
    ¬((applySettingCmd s c).buyOnly = true ∧ (applySettingCmd s c).sellOnly = true) := by
  cases c with
  | amount v =>
      cases v with
      | some a =>
          simp only [applySettingCmd]
          split <;> simpa using h
      | none => simpa [applySettingCmd] using h
  | slippage v =>
      cases v with
      | some a =>
          simp only [applySettingCmd]
          split <;> simpa using h
      | none => simpa [applySettingCmd] using h
  | delayCmd v =>
      cases v with
      | some a =>
          simp only [applySettingCmd]
          split <;> simpa using h
      | none => simpa [applySettingCmd] using h
  | maxrades v =>
      cases v with
      | some a =>
          simp only [applySettingCmd]
          split <;> simpa using h
      | none => simpa [applySettingCmd] using h
  | buyonly value => simp [applySettingCmd]
  | sellonly value => simp [applySettingCmd]
  | unknown => simpa [applySettingCmd] using h

lemma foldl_applySettingCmd_mutex (cmds : List SettingCmd) (s : Settings)
    (h : ¬(s.buyOnly = true ∧ s.sellOnly = true)) :
    ¬((cmds.foldl applySettingCmd s).buyOnly = true ∧
      (cmds.foldl applySettingCmd s).sellOnly = true) := by
  induction cmds generalizing s with
  | nil => simpa using h
  | cons c cs ih => exact ih _ (applySettingCmd_mutex s c h)

/-- C5: after any sequence of settings updates from a state where
`buyOnly` and `sellOnly` are not both set (the persisted default has
both off), they are never both true; each `buyonly` command clears
`sellOnly` and each `sellonly` command clears `buyOnly`. -/
theorem buyOnly_sellOnly_mutual_exclusion (s : Settings) (cmds : List SettingCmd)
    (h : ¬(s.buyOnly = true ∧ s.sellOnly = true)) :
    (¬((cmds.foldl applySettingCmd s).buyOnly = true ∧
       (cmds.foldl applySettingCmd s).sellOnly = true)) ∧
    (∀ (s' : Settings) (v : String), (applySettingCmd s' (.buyonly v)).sellOnly = false) ∧
    (∀ (s' : Settings) (v : String), (applySettingCmd s' (.sellonly v)).buyOnly = false) := by
  refine ⟨foldl_applySettingCmd_mutex cmds s h, ?_, ?_⟩ <;>
    intro s' v <;> simp [applySettingCmd]

/-- C5 witness: the mutual-exclusion theorem applied to the default
settings and a concrete command sequence that toggles both flags. -/
theorem buyOnly_sellOnly_mutual_exclusion_witness :
    ¬((([SettingCmd.buyonly ("on"), SettingCmd.sellonly ("on"),
         SettingCmd.buyonly ("on")]).foldl applySettingCmd defaultSettings).buyOnly = true ∧
      (([SettingCmd.buyonly ("on"), SettingCmd.sellonly ("on"),
         SettingCmd.buyonly ("on")]).foldl applySettingCmd defaultSettings).sellOnly = true) :=
  (buyOnly_sellOnly_mutual_exclusion defaultSettings
    [SettingCmd.buyonly ("on"), SettingCmd.sellonly ("on"), SettingCmd.buyonly ("on")]
    (by decide)).1

/-- C6: a user with `sellOnly` never gets an allowed decision on a
`buy`-direction event and a user with `buyOnly` never on a `sell` event;
when the direction check is the one that fires (auto-mimic on), the
decision carries the direction reason; the `shouldExecuteTrade` variant
filters the same way. -/
theorem direction_filtering (user : UserRec) (swapData : SwapData)
    (tradeCounters : String → Int) (solBalance : ℚ) :
    (user.settings.sellOnly = true → swapData.type = "buy" →
      (shouldCopyTrade user swapData tradeCounters solBalance).allowed = false) ∧
    (user.settings.buyOnly = true → swapData.type = "sell" →
      (shouldCopyTrade user swapData tradeCounters solBalance).allowed = false) ∧
    (user.settings.autoMimic = true → user.settings.sellOnly = true →
      swapData.type = "buy" →
      shouldCopyTrade user swapData tradeCounters solBalance =
        ⟨false, some ("Sell-only mode enabled")⟩) ∧
    (user.settings.autoMimic = true → user.settings.buyOnly = true →
      swapData.type = "sell" →
      shouldCopyTrade user swapData tradeCounters solBalance =
        ⟨false, some ("Buy-only mode enabled")⟩) ∧
    (∀ (isTracked : Bool) (activeCount : Option Int),
      user.settings.sellOnly = true →
        shouldExecuteTrade isTracked user.settings true activeCount = false) ∧
    (∀ (isTracked : Bool) (activeCount : Option Int),
      user.settings.buyOnly = true →
        shouldExecuteTrade isTracked user.settings false activeCount = false) := by
  refine ⟨?_, ?_, ?_, ?_, ?_, ?_⟩
  · intro hso hty
    cases ham : user.settings.autoMimic <;>
      simp [shouldCopyTrade, ham, hso, hty]
  · intro hbo hty
    cases ham : user.settings.autoMimic <;>
      simp [shouldCopyTrade, ham, hbo, hty]
  · intro ham hso hty
    simp [shouldCopyTrade, ham, hso, hty]
  · intro ham hbo hty
    simp [shouldCopyTrade, ham, hbo, hty]
  · intro isTracked activeCount hso
    simp [shouldExecuteTrade, hso]
  · intro isTracked activeCount hbo
    simp [shouldExecuteTrade, hbo]

/-- C6 witness: a sell-only user is denied on a concrete buy event, in
both decision functions. -/
theorem direction_filtering_witness :
    (shouldCopyTrade cUserSellOnly cSwap zeroCounters 1).allowed = false ∧
    shouldExecuteTrade true cUserSellOnly.settings true (some 0) = false :=
  ⟨(direction_filtering cUserSellOnly cSwap zeroCounters 1).1 rfl rfl,
   (direction_filtering cUserSellOnly cSwap zeroCounters 1).2.2.2.2.1
     true (some 0) rfl⟩

/-- The fixture user passes every `shouldCopyTrade` check on a buy swap
into `MINT` (auto-mimic on, zero counters, balance `1 > 0.01 + 0.01`). -/
lemma cUser_swap_allowed (sd : SwapData) (h1 : sd.type = "buy")
    (h2 : sd.outputToken = some ⟨some ("MINT")⟩) :
    shouldCopyTrade cUser sd zeroCounters 1 = ⟨true, none⟩ := by
  norm_num [shouldCopyTrade, cUser, defaultSettings, zeroCounters,
    swapTokenMint, tradeCounterKey, h1, h2]

/-- C1 counterexample: submitting the same `(userId, txSignature)` pair
twice produces two `CopyTradeAttempt`s in the queue (the second submit is
not a no-op), and the attempt id is not a function of
`(userId, txSignature)` alone — it changes with the enqueue timestamp. -/
theorem queueCopyTrade_not_idempotent :
    queueCopyTrade (queueCopyTrade [] cUser cSwap zeroCounters 1 0)
        cUser cSwap zeroCounters 1 1 =
      [{ id := "7_SIG_0", userId := "7", signature := "SIG",
         enqueuedAt := 0, status := "queued" },
       { id := "7_SIG_1", userId := "7", signature := "SIG",
         enqueuedAt := 1, status := "queued" }] ∧
    mkAttemptId ("7") ("SIG") 0 ≠ mkAttemptId ("7") ("SIG") 1 := by
  constructor
  · have h0 := cUser_swap_allowed cSwap rfl rfl
    simp only [queueCopyTrade, h0]
    decide
  · decide

/-- C1 (amended): the attempt id is derived from `(userId, txSignature)`
together with the enqueue time, and `queueCopyTrade` never consults the
existing queue: every submit that passes the eligibility check appends a
fresh attempt, so a repeated `(userId, txSignature)` submit appends a
second attempt instead of being a no-op. -/
theorem queueCopyTrade_appends_every_allowed_submit
    (queue : List CopyTradeAttempt) (user : UserRec) (swapData : SwapData)
    (tradeCounters : String → Int) (solBalance : ℚ) (n1 n2 : Int)
    (h : (shouldCopyTrade user swapData tradeCounters solBalance).allowed = true) :
    (queueCopyTrade queue user swapData tradeCounters solBalance n1).length =
      queue.length + 1 ∧
    (queueCopyTrade (queueCopyTrade queue user swapData tradeCounters solBalance n1)
        user swapData tradeCounters solBalance n2).length = queue.length + 2 ∧
    mkAttemptId user.id swapData.signature n1 =
      user.id ++ "_" ++ swapData.signature ++ "_" ++ toString n1 := by
  refine ⟨?_, ?_, rfl⟩ <;> simp [queueCopyTrade, h]

/-- C1 witness: two concrete submits of one signal append two attempts. -/
theorem queueCopyTrade_appends_every_allowed_submit_witness :
    (queueCopyTrade [] cUser cSwap zeroCounters 1 0).length = 0 + 1 ∧
    (queueCopyTrade (queueCopyTrade [] cUser cSwap zeroCounters 1 0)
        cUser cSwap zeroCounters 1 1).length = 0 + 2 ∧
    mkAttemptId cUser.id cSwap.signature 0 =
      cUser.id ++ "_" ++ cSwap.signature ++ "_" ++ toString (0 : Int) := by
  have := queueCopyTrade_appends_every_allowed_submit
    [] cUser cSwap zeroCounters 1 0 1 (by rw [cUser_swap_allowed cSwap rfl rfl])
  simpa using this

/-- C4 counterexample: at `now` exactly equal to `hourWindowResetAt` the
counters are NOT rolled (the source compares `now > userData.hourlyReset`
strictly), so a user whose budget is spent is still denied with the
hourly-cap reason even though the claimed `now >= hourWindowResetAt` roll
would have reset the count to `0`. -/
theorem hourly_roll_skipped_at_boundary :
    cUserData.hourlyReset = 1000 ∧
    (rollHourlyWindow cUserData 1000).tradesThisHour = 5 ∧
    (rollHourlyWindow cUserData 1000).hourlyReset = 1000 ∧
    (canUserTrade cUserData 1000).1 = some DenyReason.hourlyCap := by
  refine ⟨rfl, ?_, ?_, ?_⟩ <;> decide

/-- C4 (amended): the hourly roll fires exactly when
`now > hourWindowResetAt` (strictly after the boundary, not at it); when
it fires it resets the count to `0` and sets the boundary to exactly
`now + 3600000`; after the roll, the evaluation denies with the
hourly-cap reason if and only if the rolled `tradesThisHour` is at least
`maxTradesPerHour`. -/
theorem hourly_cap_check (u : UserData) (now : Int) :
    (now > u.hourlyReset →
      rollHourlyWindow u now =
        { u with tradesThisHour := 0, hourlyReset := now + 3600000 }) ∧
    (now ≤ u.hourlyReset → rollHourlyWindow u now = u) ∧
    ((canUserTrade u now).1 = some DenyReason.hourlyCap ↔
      (rollHourlyWindow u now).tradesThisHour ≥ u.settings.max_trades_per_hour) ∧
    (canUserTrade u now).2 = rollHourlyWindow u now := by
  have hsettings : (rollHourlyWindow u now).settings = u.settings := by
    unfold rollHourlyWindow
    split <;> rfl
  refine ⟨?_, ?_, ?_, ?_⟩
  · intro h
    unfold rollHourlyWindow
    rw [if_pos h]
  · intro h
    unfold rollHourlyWindow
    rw [if_neg (by omega)]
  · simp only [canUserTrade]
    rw [hsettings]
    by_cases hcap : (rollHourlyWindow u now).tradesThisHour ≥ u.settings.max_trades_per_hour
    · simp [hcap]
    · simp only [if_neg hcap]
      split <;> simp [hcap]
  · simp only [canUserTrade]
    split
    · rfl
    · split <;> rfl

/-- C4 witness: one millisecond past the boundary the roll fires and the
user is no longer denied for the hourly cap. -/
theorem hourly_cap_check_witness :
    rollHourlyWindow cUserData 1001 =
      { cUserData with tradesThisHour := 0, hourlyReset := 1001 + 3600000 } ∧
    ¬((canUserTrade cUserData 1001).1 = some DenyReason.hourlyCap) := by
  constructor
  · exact (hourly_cap_check cUserData 1001).1 (by decide)
  · rw [(hourly_cap_check cUserData 1001).2.2.1]
    decide

/-- C9 counterexample: when the source trade amount is unknown the
computed copy amount is `min(maxTradeAmount, 0) = 0`, not the user's
configured fixed trade amount: a fully successful execution for a user
with `max_trade_amount = 0.05` saves a trade of amount `0`. -/
theorem unknown_source_amount_gives_zero :
    (executeTrade ("7") cUserData0 cSignal (some cQuote) cSim 100).savedTrades.map
        TradeRecord.amount = [0] ∧
    (executeTrade ("7") cUserData0 cSignal (some cQuote) cSim 100).events =
      ["tradeCompleted"] ∧
    (executeTrade ("7") cUserData0 cSignal (some cQuote) cSim 100).userData.tradesThisHour = 1 ∧
    cUserData0.settings.max_trade_amount = 1/20 ∧
    (0 : ℚ) ≠ 1/20 := by
  have hamt : copyTradeAmount ((20 : ℚ)⁻¹) none = 0 := by
    unfold copyTradeAmount
    norm_num [min_def]
  refine ⟨?_, ?_, ?_, rfl, by norm_num⟩ <;>
    simp [executeTrade, cSim, cSignal, cUserData0, cUserData, hamt]

/-- C9 (amended): when all checks pass the trade amount is
`min(settings.max_trade_amount, sourceAmount * 0.1)` (a fixed scaling
factor of one tenth); when the source amount is unknown (or zero) the
amount degenerates to `min(max_trade_amount, 0)`, which is `0` for any
non-negative configured amount — not the configured fixed amount. -/
theorem copy_amount_formula (maxAmt : ℚ) (amt : Option ℚ)
    (tg : String) (u : UserData) (sig : TradeSignal) (q : JupQuote)
    (sim : SimResult) (now : Int) (hs : sim.success = true) :
    copyTradeAmount maxAmt amt = min maxAmt (amt.getD 0 * (1/10)) ∧
    (amt = none → 0 ≤ maxAmt → copyTradeAmount maxAmt amt = 0) ∧
    (executeTrade tg u sig (some q) sim now).savedTrades =
      [{ telegramId := tg, alphaWallet := sig.alphaWallet,
         tokenAddress := sig.tokenAddress, tradeType := "BUY",
         amount := copyTradeAmount u.settings.max_trade_amount sig.amountIn,
         price := q.outAmount / q.inAmount, signature := sim.signature,
         status := "completed" }] := by
  refine ⟨rfl, ?_, ?_⟩
  · intro hnone hpos
    subst hnone
    simp [copyTradeAmount, min_eq_right, hpos]
  · simp [executeTrade, hs]

/-- C9 witness: the amount formula evaluated on a known source amount and
on a missing one. -/
theorem copy_amount_formula_witness :
    copyTradeAmount (1/20) (some 2) = min (1/20) ((2 : ℚ) * (1/10)) ∧
    copyTradeAmount (1/20) none = 0 ∧
    (executeTrade ("7") cUserData0 { cSignal with amountIn := some 2 }
        (some cQuote) cSim 100).savedTrades =
      [{ telegramId := "7", alphaWallet := "alpha", tokenAddress := "TOK",
         tradeType := "BUY",
         amount := copyTradeAmount cUserData0.settings.max_trade_amount (some 2),
         price := cQuote.outAmount / cQuote.inAmount, signature := some ("S"),
         status := "completed" }] := by
  have h := copy_amount_formula (1/20) (some 2) "7" cUserData0
    { cSignal with amountIn := some 2 } cQuote cSim 100 rfl
  have h2 := copy_amount_formula (1/20) none ("7") cUserData0
    { cSignal with amountIn := some 2 } cQuote cSim 100 rfl
  exact ⟨h.1, h2.2.1 rfl (by norm_num), h.2.2⟩

/-- C3 counterexample: in the TradingEngine, an attempt that fails
because the quote is unavailable returns silently — counters are left
unchanged, but no failed attempt record is persisted and no notification
is emitted (the claim requires both). -/
theorem quote_failure_persists_nothing :
    executeTrade ("7") cUserData0 cSignal none cSim 100 =
      { userData := cUserData0, savedTrades := [], events := [] } ∧
    executeTrade ("7") cUserData0 cSignal (some cQuote)
        { success := false, signature := none } 100 =
      { userData := cUserData0, savedTrades := [], events := [] } := by
  constructor <;> rfl

/-- C3 (amended): a failed execution never touches the per-user counters
(`tokenTradeCounts` in the CopyTrader, `tradesThisHour`/`lastTradeAt` in
the TradingEngine) and counters are bumped only on success; the
CopyTrader's thrown-failure path does persist a failed record with the
error reason and emits a `tradeError` event, but the TradingEngine's
quote-unavailable and simulation-failure paths return silently with no
persisted record and no notification. -/
theorem failed_attempt_leaves_counters_unchanged
    (tc : String → Int) (user : UserRec) (sd : SwapData)
    (r : Except String TradeResult) (tg : String) (u : UserData)
    (sig : TradeSignal) (q : Option JupQuote) (sim : SimResult) (now : Int) :
    (∀ e, r = .error e →
      (executeCopyTrade tc user sd r).tradeCounters = tc ∧
      (executeCopyTrade tc user sd r).logged =
        [{ userId := user.id, originalSignature := sd.signature,
           copySignature := none, success := false, error := some e }] ∧
      (executeCopyTrade tc user sd r).events = ["tradeError"]) ∧
    (∀ tr, r = .ok tr → tr.success = false →
      (executeCopyTrade tc user sd r).tradeCounters = tc) ∧
    ((executeCopyTrade tc user sd r).tradeCounters ≠ tc →
      ∃ tr, r = .ok tr ∧ tr.success = true) ∧
    (q = none → executeTrade tg u sig q sim now =
      { userData := u, savedTrades := [], events := [] }) ∧
    (sim.success = false → executeTrade tg u sig q sim now =
      { userData := u, savedTrades := [], events := [] }) ∧
    ((executeTrade tg u sig q sim now).userData ≠ u →
      (executeTrade tg u sig q sim now).events = ["tradeCompleted"] ∧
      (executeTrade tg u sig q sim now).userData.tradesThisHour =
        u.tradesThisHour + 1) := by
  refine ⟨?_, ?_, ?_, ?_, ?_, ?_⟩
  · intro e he
    subst he
    exact ⟨rfl, rfl, rfl⟩
  · intro tr hok hfail
    subst hok
    simp [executeCopyTrade, hfail]
  · intro hne
    cases r with
    | error e => exact absurd rfl hne
    | ok tr =>
        refine ⟨tr, rfl, ?_⟩
        by_contra hfail
        exact hne (by simp [executeCopyTrade, Bool.eq_false_iff.mpr hfail])
  · intro hq
    subst hq
    rfl
  · intro hfail
    cases q with
    | none => rfl
    | some q' => simp [executeTrade, hfail]
  · intro hne
    cases q with
    | none => exact absurd rfl hne
    | some q' =>
        cases hs : sim.success with
        | false => exact absurd (by simp [executeTrade, hs]) hne
        | true => constructor <;> simp [executeTrade, hs]

/-- C3 witness: a concrete thrown failure in the CopyTrader leaves the
counters untouched while logging the error, and a concrete quote failure
in the TradingEngine changes nothing. -/
theorem failed_attempt_leaves_counters_unchanged_witness :
    (executeCopyTrade zeroCounters cUser cSwap (.error ("no keypair"))).tradeCounters =
      zeroCounters ∧
    (executeCopyTrade zeroCounters cUser cSwap (.error ("no keypair"))).events =
      ["tradeError"] ∧
    executeTrade ("7") cUserData0 cSignal none cSim 100 =
      { userData := cUserData0, savedTrades := [], events := [] } := by
  have h := failed_attempt_leaves_counters_unchanged zeroCounters cUser cSwap
    (.error ("no keypair")) "7" cUserData0 cSignal none cSim 100
  exact ⟨(h.1 ("no keypair") rfl).1, (h.1 ("no keypair") rfl).2.2, h.2.2.2.1 rfl⟩

/-- C8 counterexample: six consecutive reconnection failures drive the
monitor into a permanently halted state — monitoring was requested
(`isMonitoring` started true), yet `isMonitoring` is cleared, no retry is
scheduled, no `source-degraded` event was ever emitted, and the halted
state is a fixed point of `handleReconnect` (it never resumes retrying). -/
theorem monitor_stops_after_max_failures :
    afterFailures 6 initialMonitor = haltedMonitor ∧
    haltedMonitor.pendingRetry = false ∧
    haltedMonitor.isMonitoring = false ∧
    haltedMonitor.degradedEmitted = false ∧
    handleReconnect haltedMonitor = haltedMonitor := by
  refine ⟨?_, rfl, rfl, rfl, ?_⟩ <;> decide

/-- C8 (amended): while monitoring is on and the consecutive-failure
count is below `maxReconnectAttempts`, `handleReconnect` schedules one
retry with exponential backoff and increments the count; once the count
reaches `maxReconnectAttempts` it permanently stops (clears
`isMonitoring`, schedules nothing) instead of degrading and retrying at
a capped interval, and it never emits a `source-degraded` event on any
path; the part_005 variant likewise schedules nothing further once the
maximum is reached (it emits a generic `error` event). -/
theorem reconnect_gives_up_at_max (s : MonitorState) :
    (s.isMonitoring = true → s.reconnectAttempts < maxReconnectAttempts →
      handleReconnect s =
        { s with reconnectAttempts := s.reconnectAttempts + 1, pendingRetry := true }) ∧
    (s.reconnectAttempts ≥ maxReconnectAttempts →
      handleReconnect s = { s with isMonitoring := false, pendingRetry := false }) ∧
    (s.isMonitoring = false →
      handleReconnect s = { s with isMonitoring := false, pendingRetry := false }) ∧
    (handleReconnect s).degradedEmitted = s.degradedEmitted ∧
    (s.reconnectAttempts ≥ maxReconnectAttempts →
      (handleReconnectAlt s).pendingRetry = false ∧
      (handleReconnectAlt s).reconnectAttempts = s.reconnectAttempts) := by
  refine ⟨?_, ?_, ?_, ?_, ?_⟩
  · intro hm hlt
    unfold handleReconnect
    rw [if_neg]
    simp [hm, Nat.not_le.mpr hlt]
  · intro hge
    unfold handleReconnect
    rw [if_pos]
    simp [hge]
  · intro hm
    unfold handleReconnect
    rw [if_pos]
    simp [hm]
  · unfold handleReconnect
    split <;> rfl
  · intro hge
    unfold handleReconnectAlt
    rw [if_pos hge]
    exact ⟨rfl, rfl⟩

/-- C8 witness: the amended behaviour at concrete states on both sides of
the threshold. -/
theorem reconnect_gives_up_at_max_witness :
    handleReconnect initialMonitor =
      { initialMonitor with reconnectAttempts := 1, pendingRetry := true } ∧
    handleReconnect { initialMonitor with reconnectAttempts := 5 } =
      { initialMonitor with
          reconnectAttempts := 5
          isMonitoring := false
          pendingRetry := false } := by
  constructor
  · exact (reconnect_gives_up_at_max initialMonitor).1 rfl (by decide)
  · exact (reconnect_gives_up_at_max
      { initialMonitor with reconnectAttempts := 5 }).2.1 (by decide)

/-- The attempt produced by submitting `cSwap` at `Date.now() = 5`. -/
def attA : CopyTradeAttempt :=
  { id := "7_SIG_5", userId := "7", signature := "SIG", enqueuedAt := 5,
    status := "queued" }

def attB : CopyTradeAttempt :=
  { id := "7_SIG2_6", userId := "7", signature := "SIG2", enqueuedAt := 6,
    status := "queued" }

def attC : CopyTradeAttempt :=
  { id := "7_SIG3_7", userId := "7", signature := "SIG3", enqueuedAt := 7,
    status := "queued" }

lemma collidingQueue_eq : collidingQueue = [attA, attA, attB, attC] := by
  unfold collidingQueue
  simp only [queueCopyTrade, cUser_swap_allowed cSwap rfl rfl,
    cUser_swap_allowed cSwap2 rfl rfl, cUser_swap_allowed cSwap3 rfl rfl]
  decide

def execInit : ExecState := { queued := collidingQueue, executing := [], active := ∅ }

/-- The state after the drain loop has launched all four queued attempts. -/
def execOverloaded : ExecState :=
  { queued := []
    executing := [attC, attB, attA, attA]
    active := insert attC.id (insert attB.id (insert attA.id
      (insert attA.id (∅ : Finset String)))) }

/-- C2 counterexample: with the default cap of `3`, a queue holding two
attempts that share an id (same user, same signature, same enqueue
millisecond — `activeTrades` is a `Set` of id strings, so the second
`add` is absorbed) plus two further attempts is fully drained into four
simultaneously executing attempts: the loop's `activeTrades.size <
maxConcurrentTrades` guard sees sizes `0,1,1,2`, so the number of
attempts in the `executing` state exceeds `maxConcurrentTrades`. -/
theorem concurrency_cap_exceeded :
    ExecReach maxConcurrentTrades execInit execOverloaded ∧
    execOverloaded.executing.length = 4 ∧
    maxConcurrentTrades = 3 ∧
    execOverloaded.active.card = 3 := by
  refine ⟨?_, rfl, rfl, by decide⟩
  have h1 : ExecStep maxConcurrentTrades execInit
      ⟨[attA, attB, attC], [attA], insert attA.id ∅⟩ :=
    ExecStep.start execInit attA [attA, attB, attC] collidingQueue_eq (by decide)
  have h2 : ExecStep maxConcurrentTrades
      ⟨[attA, attB, attC], [attA], insert attA.id ∅⟩
      ⟨[attB, attC], [attA, attA], insert attA.id (insert attA.id ∅)⟩ :=
    ExecStep.start _ attA [attB, attC] rfl (by decide)
  have h3 : ExecStep maxConcurrentTrades
      ⟨[attB, attC], [attA, attA], insert attA.id (insert attA.id ∅)⟩
      ⟨[attC], [attB, attA, attA],
        insert attB.id (insert attA.id (insert attA.id ∅))⟩ :=
    ExecStep.start _ attB [attC] rfl (by decide)
  have h4 : ExecStep maxConcurrentTrades
      ⟨[attC], [attB, attA, attA],
        insert attB.id (insert attA.id (insert attA.id ∅))⟩
      execOverloaded :=
    ExecStep.start _ attC [] rfl (by decide)
  exact .head h1 (.head h2 (.head h3 (.head h4 .refl)))

def attemptIds (l : List CopyTradeAttempt) : List String :=
  l.map CopyTradeAttempt.id

/-- Drain-loop invariant: no attempt id is duplicated between the queue
and the in-flight set, every in-flight attempt's id is in `activeTrades`,
and `activeTrades` is below the cap. -/
def ExecInv (max : ℕ) (s : ExecState) : Prop :=
  (attemptIds s.queued ++ attemptIds s.executing).Nodup ∧
  (∀ a ∈ s.executing, a.id ∈ s.active) ∧
  s.active.card ≤ max

lemma execStep_preserves_inv {max : ℕ} {s t : ExecState}
    (hstep : ExecStep max s t) (hinv : ExecInv max s) : ExecInv max t := by
  obtain ⟨hnd, hmem, hcard⟩ := hinv
  cases hstep with
  | start a rest hq hlt =>
      rw [hq] at hnd
      simp only [attemptIds, List.map_cons, List.cons_append] at hnd
      refine ⟨?_, ?_, ?_⟩
      · simpa [attemptIds] using (List.perm_middle.symm.nodup hnd)
      · intro b hb
        rcases List.mem_cons.mp hb with hba | hbe
        · subst hba
          exact Finset.mem_insert_self _ _
        · exact Finset.mem_insert_of_mem (hmem b hbe)
      · calc (insert a.id s.active).card ≤ s.active.card + 1 :=
              Finset.card_insert_le _ _
          _ ≤ max := hlt
  | finish a ha =>
      have hexecnd : (attemptIds s.executing).Nodup := hnd.of_append_right
      have hexecnd' : s.executing.Nodup := hexecnd.of_map
      refine ⟨?_, ?_, ?_⟩
      · have hsub : (attemptIds s.queued ++ attemptIds (s.executing.erase a)).Sublist
            (attemptIds s.queued ++ attemptIds s.executing) :=
          ((List.erase_sublist a s.executing).map CopyTradeAttempt.id).append_left _
        exact hnd.sublist hsub
      · intro b hb
        obtain ⟨hne, hbe⟩ := (hexecnd'.mem_erase_iff).mp hb
        refine Finset.mem_erase.mpr ⟨?_, hmem b hbe⟩
        intro hid
        exact hne (List.inj_on_of_nodup_map hexecnd hbe ha hid)
      · exact le_trans (Finset.card_erase_le) hcard

lemma execReach_inv {max : ℕ} {s t : ExecState}
    (hreach : ExecReach max s t) (hinv : ExecInv max s) : ExecInv max t := by
  induction hreach with
  | refl => exact hinv
  | tail _ hstep ih => exact execStep_preserves_inv hstep ih

lemma execInv_executing_length_le {max : ℕ} {s : ExecState}
    (hinv : ExecInv max s) : s.executing.length ≤ max := by
  obtain ⟨hnd, hmem, hcard⟩ := hinv
  have hexecnd : (attemptIds s.executing).Nodup := hnd.of_append_right
  have hsub : (attemptIds s.executing).toFinset ⊆ s.active := by
    intro x hx
    obtain ⟨b, hb, hbid⟩ := List.mem_map.mp (List.mem_toFinset.mp hx)
    exact hbid ▸ hmem b hb
  calc s.executing.length = (attemptIds s.executing).length := by
        simp [attemptIds]
    _ = (attemptIds s.executing).toFinset.card :=
        (List.toFinset_card_of_nodup hexecnd).symm
    _ ≤ s.active.card := Finset.card_le_card hsub
    _ ≤ max := hcard

/-- C2 (amended): the drain loop never launches an attempt while the
active-trade set holds `maxConcurrentTrades` ids, and each terminating
attempt deletes its id, so as long as all enqueued attempt ids are
pairwise distinct (true whenever no two submits of the same
`(userId, txSignature)` land in the same millisecond) at most
`maxConcurrentTrades` attempts are executing at any reachable instant;
with a duplicated id the `Set` undercounts and the bound holds only for
the set itself, not for the number of executing attempts. -/
theorem concurrency_cap_with_distinct_ids (max : ℕ)
    (q0 : List CopyTradeAttempt) (s : ExecState)
    (hnd : (attemptIds q0).Nodup)
    (hreach : ExecReach max ⟨q0, [], ∅⟩ s) :
    s.executing.length ≤ max ∧ s.active.card ≤ max := by
  have hinv0 : ExecInv max ⟨q0, [], ∅⟩ :=
    ⟨by simpa [attemptIds] using hnd, by simp, by simp⟩
  have hinv := execReach_inv hreach hinv0
  exact ⟨execInv_executing_length_le hinv, hinv.2.2⟩

/-- C2 witness: a two-element distinct-id queue after one launch step
respects the cap. -/
theorem concurrency_cap_with_distinct_ids_witness :
    (⟨[attC], [attB], insert attB.id (∅ : Finset String)⟩ :
      ExecState).executing.length ≤ 3 ∧
    (⟨[attC], [attB], insert attB.id (∅ : Finset String)⟩ :
      ExecState).active.card ≤ 3 :=
  concurrency_cap_with_distinct_ids 3 [attB, attC] _ (by decide)
    (Relation.ReflTransGen.single
      (ExecStep.start ⟨[attB, attC], [], ∅⟩ attB [attC] rfl (by decide)))

/-- A "transaction" carrying a Jupiter instruction whose `parsed` payload
is missing: reading `.parsed.info` on it throws inside the `try` block. -/
def cMalformedTx : ParsedTx :=
  { meta := some
      { innerInstructions := some
          [⟨[{ programId := some JUPITER_PROGRAM_ID, parsed := none }]⟩]
        fee := 0 }
    blockTime := none }

/-- A transaction whose only instruction invokes the system program, not
any known swap protocol. -/
def cNoJupTx : ParsedTx :=
  { meta := some
      { innerInstructions := some
          [⟨[{ programId := some ("11111111111111111111111111111111"),
               parsed := some ⟨some ⟨some ("A"), some ("B"), some 1, some 2⟩⟩ }]⟩]
        fee := 0 }
    blockTime := some 5 }

/-- C7: the parser never lets an exception past its boundary — every
thrown body (any decode error, including a failed RPC fetch) is caught
and surfaces as `none`, a transaction invoking none of the known
swap-protocol program ids yields `none`, and on every input the function
returns a plain value (`none` or a `SwapEvent`). -/
theorem parser_never_throws (fetch : Except String (Option ParsedTx)) (sig : String) :
    (∀ e, parseSwapBody fetch sig = .error e → parseSwapTransaction fetch sig = none) ∧
    (∀ e, fetch = .error e → parseSwapTransaction fetch sig = none) ∧
    (∀ otx, fetch = .ok otx → txInvokesJupiter otx = false →
      parseSwapTransaction fetch sig = none) ∧
    (parseSwapTransaction fetch sig = none ∨
      ∃ ev, parseSwapTransaction fetch sig = some ev) := by
  refine ⟨?_, ?_, ?_, ?_⟩
  · intro e he
    unfold parseSwapTransaction
    rw [he]
  · intro e he
    subst he
    rfl
  · intro otx hok hnj
    subst hok
    cases otx with
    | none => rfl
    | some tx =>
        cases hm : tx.meta with
        | none => simp [parseSwapTransaction, parseSwapBody, hm]
        | some meta =>
            cases hii : meta.innerInstructions with
            | none => simp [parseSwapTransaction, parseSwapBody, hm, hii]
            | some groups =>
                simp only [txInvokesJupiter, hm, hii] at hnj
                have hfind : findJupiterInstr groups = none := by
                  unfold findJupiterInstr
                  rw [List.find?_eq_none]
                  intro x hx hpx
                  rw [List.any_eq_false] at hnj
                  exact hnj x hx hpx
                simp [parseSwapTransaction, parseSwapBody, hm, hii, hfind]
  · cases h : parseSwapTransaction fetch sig with
    | none => exact Or.inl rfl
    | some ev => exact Or.inr ⟨ev, rfl⟩

/-- C7 witness: a failed RPC fetch, a malformed Jupiter transaction whose
body throws, and a non-swap transaction all yield `none`. -/
theorem parser_never_throws_witness :
    parseSwapTransaction (.error ("fetch failed")) "sig" = none ∧
    parseSwapTransaction (.ok (some cMalformedTx)) "sig" = none ∧
    parseSwapBody (.ok (some cMalformedTx)) "sig" =
      .error ("TypeError: undefined parsed") ∧
    parseSwapTransaction (.ok (some cNoJupTx)) "sig" = none ∧
    txInvokesJupiter (some cNoJupTx) = false := by
  refine ⟨?_, ?_, rfl, ?_, rfl⟩
  · exact (parser_never_throws (.error ("fetch failed")) "sig").2.1 ("fetch failed") rfl
  · exact (parser_never_throws (.ok (some cMalformedTx)) "sig").1
      "TypeError: undefined parsed" rfl
  · exact (parser_never_throws (.ok (some cNoJupTx)) "sig").2.2.1
      (some cNoJupTx) rfl rfl

end Copi
